import Mathlib

/-!
Verification development for the rift backend core logic.

The Python source is shallowly embedded: JSON numbers are modelled as
rationals (or naturals where the source only ever holds integers),
dictionaries preserving insertion order are modelled as association
lists, and HTTP failure paths are modelled with Except carrying the
status code and detail message.  Lists of match records are given in
the order the upstream API returns them: index 0 is the most recent
match.
-/

/-! ## Python rounding

Python round(x, d) performs round-half-even.  We model it exactly on
rationals: rhe is round-half-even to an integer, pyRound scales by a
power of ten.
-/

/-- Round-half-even of a rational to an integer, as Python round does. -/
def rhe (x : ℚ) : ℤ :=
  if x - ⌊x⌋ < 1/2 then ⌊x⌋
  else if 1/2 < x - ⌊x⌋ then ⌊x⌋ + 1
  else if Even ⌊x⌋ then ⌊x⌋ else ⌊x⌋ + 1

/-- Python round(x, d) on rationals. -/
def pyRound (x : ℚ) (d : ℕ) : ℚ :=
  (rhe (x * (10 : ℚ) ^ d) : ℚ) / (10 : ℚ) ^ d

/-! ## Python string primitives

Python str.lower, str.upper and string comparison are modelled
per-character over the underlying character list (the source only ever
compares ASCII names and platform codes).
-/

/-- Python str.lower. -/
def strLower (s : String) : String := ⟨s.data.map Char.toLower⟩

/-- Python str.upper. -/
def strUpper (s : String) : String := ⟨s.data.map Char.toUpper⟩

/-- Lexicographic comparison of character lists by code point. -/
def charListLe : List Char → List Char → Bool
  | [], _ => true
  | _ :: _, [] => false
  | a :: as, b :: bs =>
    if a.val < b.val then true
    else if b.val < a.val then false
    else charListLe as bs

/-- Python string less-or-equal, as used by sorted. -/
def strLe (a b : String) : Bool := charListLe a.data b.data

/-! ## Match data model

Participant and match records as consumed by the analytics endpoints.
Only the attributes the embedded code reads are retained; JSON integer
fields are naturals.
-/

/-- One entry of perks.styles of a participant: a rune style id and its
selected perk ids. -/
structure RuneStyle where
  style : ℕ
  selections : List ℕ
  deriving Repr, DecidableEq

/-- One participant row of a match payload. -/
structure Participant where
  puuid : String
  teamId : ℕ
  championName : String
  teamPosition : String
  kills : ℕ
  deaths : ℕ
  assists : ℕ
  totalMinionsKilled : ℕ
  neutralMinionsKilled : ℕ
  totalDamageDealtToChampions : ℕ
  visionScore : ℕ
  goldEarned : ℕ
  win : Bool
  summoner1Id : ℕ
  summoner2Id : ℕ
  perksStyles : List RuneStyle
  deriving Repr, DecidableEq

/-- One match payload: info.gameDuration and info.participants. -/
structure MatchData where
  matchId : String
  gameDuration : ℕ
  participants : List Participant
  deriving Repr, DecidableEq

/-! ## get_player_performance (analytics)

Embedding of the pure per-request computation of
src/api_endpoints/routers/analytics/get_player_performance.py, applied
to the list of match payloads the fetch loop obtained (most recent
first, one entry per successfully fetched match id).
-/

/-- The player-search and team-kills pass of get_player_performance
(source lines 130-137): player_data is set when the puuid matches, and
kills are added only when player_data is already set and the row shares
its teamId. -/
def teamKillsLoop (puuid : String) :
    List Participant → Option Participant → ℕ → Option Participant × ℕ
  | [], pd, tk => (pd, tk)
  | p :: rest, pd, tk =>
    let pd2 := if p.puuid = puuid then some p else pd
    let tk2 :=
      match pd2 with
      | some q => if p.teamId = q.teamId then tk + p.kills else tk
      | none => tk
    teamKillsLoop puuid rest pd2 tk2

/-- Team kills as claim C1 states them: the sum of kills over all
participants of the match sharing the team id of the player row,
regardless of where the player row occurs. -/
def specTeamKills (teamId : ℕ) (participants : List Participant) : ℕ :=
  ((participants.filter fun p => p.teamId = teamId).map Participant.kills).sum

/-- KDA of source line 155: (kills + assists) / max(deaths, 1). -/
def kda_value (kills deaths assists : ℕ) : ℚ :=
  ((kills : ℚ) + (assists : ℚ)) / ((max deaths 1 : ℕ) : ℚ)

/-- One entry of performance_data (source lines 186-198); numeric fields
carry the rounding the source applies before storing. -/
structure PerfRow where
  match_id : String
  champion : String
  role : String
  kda : ℚ
  cs_per_min : ℚ
  damage_per_min : ℚ
  vision_score : ℕ
  gold_per_min : ℚ
  kill_participation : ℚ
  win : Bool
  game_duration : ℕ
  deriving Repr, DecidableEq

/-- Per-match processing of get_player_performance (source lines
125-198): find the player row and team kills, skip the match when the
row is absent, otherwise derive the stored metrics. -/
def processMatch (puuid : String) (m : MatchData) : Option PerfRow :=
  match teamKillsLoop puuid m.participants none 0 with
  | (none, _) => none
  | (some player_data, team_kills) =>
    let kills := player_data.kills
    let deaths := player_data.deaths
    let assists := player_data.assists
    let kda := kda_value kills deaths assists
    let total_cs := player_data.totalMinionsKilled + player_data.neutralMinionsKilled
    let cs_per_min : ℚ :=
      if m.gameDuration > 0 then ((total_cs : ℚ) / (m.gameDuration : ℚ)) * 60 else 0
    let damage_per_min : ℚ :=
      if m.gameDuration > 0 then
        ((player_data.totalDamageDealtToChampions : ℚ) / (m.gameDuration : ℚ)) * 60
      else 0
    let gold_per_min : ℚ :=
      if m.gameDuration > 0 then ((player_data.goldEarned : ℚ) / (m.gameDuration : ℚ)) * 60 else 0
    let kp : ℚ :=
      if team_kills > 0 then
        (((kills : ℚ) + (assists : ℚ)) / ((max team_kills 1 : ℕ) : ℚ)) * 100
      else 0
    some {
      match_id := m.matchId
      champion := player_data.championName
      role := player_data.teamPosition
      kda := pyRound kda 2
      cs_per_min := pyRound cs_per_min 1
      damage_per_min := pyRound damage_per_min 0
      vision_score := player_data.visionScore
      gold_per_min := pyRound gold_per_min 0
      kill_participation := pyRound kp 1
      win := player_data.win
      game_duration := m.gameDuration }

/-- performance_data accumulated over the fetched matches, in fetch
order (most recent first). -/
def performance_data (puuid : String) (matchList : List MatchData) : List PerfRow :=
  matchList.filterMap (processMatch puuid)

/-- total_games, returned as matches_analyzed (source lines 142, 220). -/
def perf_matches_analyzed (puuid : String) (matchList : List MatchData) : ℕ :=
  (performance_data puuid matchList).length

/-- The Python slice rows[-n:]. -/
def lastSlice (rows : List PerfRow) (n : ℕ) : List PerfRow :=
  rows.drop (rows.length - n)

/-- safe_mean of the source (lines 208-209). -/
def safe_mean (values : List ℚ) : ℚ :=
  if values = [] then 0 else pyRound (values.sum / (values.length : ℚ)) 2

/-- Trailing-window win rate as computed by the source (lines 238, 242):
over performance_data[-n:]. -/
def recent_win_rate (rows : List PerfRow) (n : ℕ) : ℚ :=
  pyRound ((((lastSlice rows n).filter fun r => r.win).length : ℚ)
    / ((min n rows.length : ℕ) : ℚ) * 100) 1

/-- Trailing-window average KDA as computed by the source (lines 239,
243): safe_mean of the stored kda fields of performance_data[-n:]. -/
def recent_avg_kda (rows : List PerfRow) (n : ℕ) : ℚ :=
  safe_mean ((lastSlice rows n).map fun r => r.kda)

/-- Trailing-window win rate as claim C2 states it: over the most
recent n entries of the result list, which is ordered most recent
first, hence over rows.take n. -/
def specRecentWinRate (rows : List PerfRow) (n : ℕ) : ℚ :=
  pyRound ((((rows.take n).filter fun r => r.win).length : ℚ)
    / ((min n rows.length : ℕ) : ℚ) * 100) 1

/-- The cap of source lines 73-74: match_count is lowered to 30. -/
def perf_effective_count (match_count : ℕ) : ℕ :=
  if match_count > 30 then 30 else match_count

/-! ## get_summoner_spells_analysis (user_info)

Embedding of the pure per-request computation of
src/api_endpoints/routers/user_info/get_summoner_spells_analysis.py.
-/

/-- The player search with break used by the spells and runes loops:
the first participant row whose puuid matches. -/
def find_player (puuid : String) (participants : List Participant) : Option Participant :=
  participants.find? fun p => p.puuid = puuid

/-- The SUMMONER_SPELLS id-to-name table (source lines 35-47). -/
def SUMMONER_SPELLS : List (ℕ × String) :=
  [(1, "Cleanse"), (3, "Exhaust"), (4, "Flash"), (6, "Ghost"), (7, "Heal"),
   (11, "Smite"), (12, "Teleport"), (13, "Clarity"), (14, "Ignite"),
   (21, "Barrier"), (32, "Mark/Dash")]

/-- SUMMONER_SPELLS.get(id, Unknown_id) (source lines 142-143). -/
def spell_name (id : ℕ) : String :=
  match SUMMONER_SPELLS.find? fun kv => kv.1 = id with
  | some kv => kv.2
  | none => "Unknown_" ++ toString id

/-- tuple(sorted([spell1_name, spell2_name])) (source line 146). -/
def spell_combo (p : Participant) : String × String :=
  let n1 := spell_name p.summoner1Id
  let n2 := spell_name p.summoner2Id
  if strLe n1 n2 then (n1, n2) else (n2, n1)

/-- The champion filter of the spells and runes loops: skip when a
filter is set and the champion name differs case-insensitively. -/
def champion_filter_skips (filter : Option String) (champion : String) : Bool :=
  match filter with
  | some f => strLower champion ≠ strLower f
  | none => false

/-- The participant rows the spells loop aggregates: player row found
and champion filter passed, one per fetched match (source lines
111-152). -/
def spells_analyzed_rows (puuid : String) (filter : Option String)
    (matchList : List MatchData) : List Participant :=
  matchList.filterMap fun m =>
    match find_player puuid m.participants with
    | none => none
    | some pd => if champion_filter_skips filter pd.championName then none else some pd

/-- The matches_analyzed value the spells endpoint returns (source line
228): the length of the key list of the spell_combinations Counter,
i.e. the number of distinct spell combinations. -/
def spells_matches_analyzed (puuid : String) (filter : Option String)
    (matchList : List MatchData) : ℕ :=
  (((spells_analyzed_rows puuid filter matchList).map spell_combo).dedup).length

/-- The matches_analyzed value claim C3 states for the spells endpoint:
the number of fetched matches whose player row was found and passed the
champion filter. -/
def spec_spells_matches_analyzed (puuid : String) (filter : Option String)
    (matchList : List MatchData) : ℕ :=
  (spells_analyzed_rows puuid filter matchList).length

/-- The cap of source lines 87-88: match_count is lowered to 25. -/
def spells_effective_count (match_count : ℕ) : ℕ :=
  if match_count > 25 then 25 else match_count

/-! ## get_runes_masteries (user_info)

Embedding of the pure per-request computation of
src/api_endpoints/routers/user_info/get_runes_masteries.py.  Python
Counters and dicts are modelled as insertion-ordered association
lists; the local variable keystone_id, which the source leaves unbound
until a match with a nonempty primary selection list is seen, is
modelled as an Option carried through the fold, and the NameError a
read of the unbound variable would raise is modelled as a 500 error.
-/

/-- The RUNE_TREES id-to-name table (source lines 36-42). -/
def RUNE_TREES : List (ℕ × String) :=
  [(8000, "Precision"), (8100, "Domination"), (8200, "Sorcery"),
   (8300, "Resolve"), (8400, "Inspiration")]

/-- RUNE_TREES.get(id, Unknown_id) (source lines 144-145). -/
def rune_tree_name (id : ℕ) : String :=
  match RUNE_TREES.find? fun kv => kv.1 = id with
  | some kv => kv.2
  | none => "Unknown_" ++ toString id

/-- Counter increment: counter[k] += 1 on an insertion-ordered
association list with unique keys. -/
def bump {α : Type} [DecidableEq α] : List (α × ℕ) → α → List (α × ℕ)
  | [], k => [(k, 1)]
  | kv :: rest, k => if kv.1 = k then (kv.1, kv.2 + 1) :: rest else kv :: bump rest k

/-- Total count held by a Counter. -/
def sumCounts {α : Type} (c : List (α × ℕ)) : ℕ :=
  (c.map fun kv => kv.2).sum

/-- One entry of rune_data (source lines 170-177). -/
structure RuneRow where
  match_id : String
  champion : String
  primary_tree : String
  secondary_tree : String
  keystone_id : ℕ
  win : Bool
  deriving Repr, DecidableEq

/-- The per-champion counters of champion_runes (source lines 157-168). -/
structure ChampRunes where
  primary_trees : List (String × ℕ)
  secondary_trees : List (String × ℕ)
  keystones : List (ℕ × ℕ)
  games : ℕ
  deriving Repr, DecidableEq

/-- The accumulator state of the runes match loop. -/
structure RunesState where
  rune_data : List RuneRow
  primary_trees : List (String × ℕ)
  secondary_trees : List (String × ℕ)
  keystone_runes : List (ℕ × ℕ)
  champion_runes : List (String × ChampRunes)
  keystone_id : Option ℕ
  deriving Repr, DecidableEq

/-- champion_runes update of source lines 156-168: create the entry on
first sight, then increment its counters and games. -/
def bumpChampion (cr : List (String × ChampRunes)) (champ ptn stn : String)
    (k : ℕ) : List (String × ChampRunes) :=
  match cr with
  | [] => [(champ, ⟨[(ptn, 1)], [(stn, 1)], [(k, 1)], 1⟩)]
  | kv :: rest =>
    if kv.1 = champ then
      (kv.1, ⟨bump kv.2.primary_trees ptn, bump kv.2.secondary_trees stn,
        bump kv.2.keystones k, kv.2.games + 1⟩) :: rest
    else kv :: bumpChampion rest champ ptn stn k

/-- The state update for a match that passed all guards (source lines
137-177): tree counters are always bumped; the keystone counter is
bumped only when the primary selection list is nonempty, otherwise the
stale keystone_id variable is read (a NameError when it was never
assigned); the rune row and the champion entry use whatever that
variable holds. -/
def runesAddRow (st : RunesState) (m : MatchData) (pd : Participant)
    (primary_style secondary_style : RuneStyle) : Except (ℕ × String) RunesState :=
  let primary_tree_name := rune_tree_name primary_style.style
  let secondary_tree_name := rune_tree_name secondary_style.style
  match primary_style.selections with
  | k :: _ => .ok {
      rune_data := st.rune_data ++
        [⟨m.matchId, pd.championName, primary_tree_name, secondary_tree_name, k, pd.win⟩]
      primary_trees := bump st.primary_trees primary_tree_name
      secondary_trees := bump st.secondary_trees secondary_tree_name
      keystone_runes := bump st.keystone_runes k
      champion_runes := bumpChampion st.champion_runes pd.championName
        primary_tree_name secondary_tree_name k
      keystone_id := some k }
  | [] =>
    match st.keystone_id with
    | none => .error (500, "NameError: keystone_id")
    | some keystone => .ok {
        rune_data := st.rune_data ++
          [⟨m.matchId, pd.championName, primary_tree_name, secondary_tree_name,
            keystone, pd.win⟩]
        primary_trees := bump st.primary_trees primary_tree_name
        secondary_trees := bump st.secondary_trees secondary_tree_name
        keystone_runes := st.keystone_runes
        champion_runes := bumpChampion st.champion_runes pd.championName
          primary_tree_name secondary_tree_name keystone
        keystone_id := st.keystone_id }

/-- One iteration of the runes match loop (source lines 107-177). -/
def runesProcessMatch (puuid : String) (filter : Option String)
    (st : RunesState) (m : MatchData) : Except (ℕ × String) RunesState :=
  match find_player puuid m.participants with
  | none => .ok st
  | some pd =>
    if champion_filter_skips filter pd.championName then .ok st
    else
      match pd.perksStyles with
      | primary_style :: secondary_style :: _ =>
        runesAddRow st m pd primary_style secondary_style
      | _ => .ok st

/-- The runes match loop folded over the fetched matches. -/
def runesFold (puuid : String) (filter : Option String) :
    RunesState → List MatchData → Except (ℕ × String) RunesState
  | st, [] => .ok st
  | st, m :: rest =>
    match runesProcessMatch puuid filter st m with
    | .error e => .error e
    | .ok st2 => runesFold puuid filter st2 rest

/-- The fields of the runes response the claims are about.  The HTTP
response renders most_common truncations of the three overall counters;
the counters themselves are carried here.  champion_breakdown holds the
champion entries the breakdown loop emitted before the return statement
placed inside it stopped the loop, i.e. only the first entry. -/
structure RunesResult where
  matches_analyzed : ℕ
  primary_trees : List (String × ℕ)
  secondary_trees : List (String × ℕ)
  keystone_runes : List (ℕ × ℕ)
  champion_breakdown : List (String × ChampRunes)
  deriving Repr, DecidableEq

/-- Pure core of get_runes_masteries: fold the match loop, fail with
404 when no rune row was collected (source lines 183-184), otherwise
assemble the response; the breakdown loop returns from inside its
first iteration (source lines 203-212), so only the first
champion_runes entry is rendered. -/
def get_runes_masteries (puuid : String) (filter : Option String)
    (matchList : List MatchData) : Except (ℕ × String) RunesResult :=
  match runesFold puuid filter ⟨[], [], [], [], [], none⟩ matchList with
  | .error e => .error e
  | .ok st =>
    if st.rune_data = [] then .error (404, "No rune data found in recent matches.")
    else .ok {
      matches_analyzed := st.rune_data.length
      primary_trees := st.primary_trees
      secondary_trees := st.secondary_trees
      keystone_runes := st.keystone_runes
      champion_breakdown := st.champion_runes.take 1 }

/-- The cap of source lines 82-83: match_count is lowered to 20. -/
def runes_effective_count (match_count : ℕ) : ℕ :=
  if match_count > 20 then 20 else match_count

/-! ## Champion catalog, get_team_composition (analysis) and
get_match_outcome (predictions)

The static catalog is an insertion-ordered association list from
champion id to entry.  Response fields no claim consults (phase
analysis, recommendations, win conditions, matchup detail lists) are
not carried.
-/

/-- A champion catalog entry: name, title, tags and the info base
stats (source reads attack, defense, magic, difficulty with default
5). -/
structure ChampInfo where
  name : String
  title : String
  tags : List String
  attack : ℚ
  defense : ℚ
  magic : ℚ
  difficulty : ℚ
  deriving Repr, DecidableEq

/-- Linear catalog scan by case-insensitive name, first hit wins
(get_team_composition lines 81-85, get_match_outcome lines 82-86). -/
def get_champion_info (championsData : List (String × ChampInfo))
    (championName : String) : Option ChampInfo :=
  match championsData.find? fun kv => strLower kv.2.name = strLower championName with
  | some kv => some kv.2
  | none => none

/-- TEAM_ARCHETYPES (source lines 31-38): name, required_tags,
bonus_tags, in table order. -/
def TEAM_ARCHETYPES : List (String × List String × List String) :=
  [("Poke", ["Mage"], ["Marksman"]),
   ("Engage", ["Tank"], ["Fighter", "Assassin"]),
   ("Protect", ["Support", "Marksman"], ["Tank"]),
   ("Split Push", ["Fighter"], ["Assassin"]),
   ("Teamfight", ["Tank", "Mage"], ["Support"]),
   ("Pick", ["Assassin"], ["Support"])]

/-- The score loops of source lines 128-136: +3 per required tag
present in the team tag set, +1 per bonus tag present. -/
def archetype_score (unique_tags required bonus : List String) : ℕ :=
  let s1 := required.foldl (fun s t => if unique_tags.contains t then s + 3 else s) 0
  bonus.foldl (fun s t => if unique_tags.contains t then s + 1 else s) s1

/-- The archetype selection loop of source lines 124-140: running best
starts at Balanced with score 0 and is replaced only on a strictly
higher score. -/
def select_archetype (unique_tags : List String) : String × ℕ :=
  TEAM_ARCHETYPES.foldl
    (fun best entry =>
      let score := archetype_score unique_tags entry.2.1 entry.2.2
      if score > best.2 then (entry.1, score) else best)
    ("Balanced", 0)

/-- Accumulator of the own-team loop of get_team_composition (source
lines 88-117): champion entries, concatenated tags, stat totals. -/
structure OwnTeamAcc where
  team_data : List ChampInfo
  all_tags : List String
  attack : ℚ
  defense : ℚ
  magic : ℚ
  difficulty : ℚ
  deriving Repr, DecidableEq

/-- The own-team loop: abort with 404 at the first name whose catalog
lookup misses (source lines 92-95), otherwise accumulate. -/
def analyzeOwnTeam (championsData : List (String × ChampInfo)) :
    List String → Except (ℕ × String) OwnTeamAcc
  | [] => .ok ⟨[], [], 0, 0, 0, 0⟩
  | name :: rest =>
    match get_champion_info championsData name with
    | none => .error (404, "Champion not found: " ++ name)
    | some ci =>
      match analyzeOwnTeam championsData rest with
      | .error e => .error e
      | .ok acc =>
        .ok ⟨ci :: acc.team_data, ci.tags ++ acc.all_tags,
          ci.attack + acc.attack, ci.defense + acc.defense,
          ci.magic + acc.magic, ci.difficulty + acc.difficulty⟩

/-- The enemy-team tag collection of source lines 277-281: a lookup
miss is skipped, its tags are simply not added. -/
def enemy_tags_of (championsData : List (String × ChampInfo))
    (enemy_champions : List String) : List String :=
  enemy_champions.foldl
    (fun ts name =>
      match get_champion_info championsData name with
      | some ei => ts ++ ei.tags
      | none => ts)
    []

/-- The response fields of get_team_composition the claims consult. -/
structure TeamCompResult where
  champions : List ChampInfo
  archetype : String
  avg_attack : ℚ
  avg_defense : ℚ
  avg_magic : ℚ
  avg_difficulty : ℚ
  role_diversity : ℕ
  unique_roles : List String
  strengths : List String
  weaknesses : List String
  enemy_roles : Option (List String)
  deriving Repr, DecidableEq

/-- Pure core of get_team_composition: length guards (source lines
69-73), own-team loop with hard 404, archetype selection, averages,
strength and weakness labels, and the lenient enemy matchup tag scan.
The Python set unique_tags is modelled as first-occurrence dedup. -/
def get_team_composition (championsData : List (String × ChampInfo))
    (champions enemy_champions : List String) : Except (ℕ × String) TeamCompResult :=
  if champions.length ≠ 5 then
    .error (400, "Team must have exactly 5 champions.")
  else if enemy_champions ≠ [] ∧ enemy_champions.length ≠ 5 then
    .error (400, "Enemy team must have exactly 5 champions if provided.")
  else
    match analyzeOwnTeam championsData champions with
    | .error e => .error e
    | .ok acc =>
      let unique_tags := acc.all_tags.dedup
      let team_archetype := (select_archetype unique_tags).1
      let avgA := pyRound (acc.attack / 5) 1
      let avgD := pyRound (acc.defense / 5) 1
      let avgM := pyRound (acc.magic / 5) 1
      let avgDiff := pyRound (acc.difficulty / 5) 1
      let role_count := unique_tags.length
      let strengths :=
        (if avgA ≥ 7 then ["High physical damage output"] else []) ++
        (if avgM ≥ 7 then ["Strong magic damage"] else []) ++
        (if avgD ≥ 7 then ["Tanky frontline"] else []) ++
        (if role_count ≥ 4 then ["Diverse team composition"] else []) ++
        (if unique_tags.contains "Tank" ∧ unique_tags.contains "Marksman" then
          ["Good engage and sustained damage"] else []) ++
        (if unique_tags.contains "Support" then
          ["Strong utility and vision control"] else [])
      let weaknesses :=
        (if ¬ avgA ≥ 7 ∧ avgA ≤ 4 then ["Low physical damage"] else []) ++
        (if ¬ avgM ≥ 7 ∧ avgM ≤ 4 then ["Limited magic damage"] else []) ++
        (if ¬ avgD ≥ 7 ∧ avgD ≤ 4 then ["Fragile team composition"] else []) ++
        (if ¬ role_count ≥ 4 ∧ role_count ≤ 2 then ["Limited role diversity"] else []) ++
        (if unique_tags.contains "Assassin" ∧ ¬ unique_tags.contains "Tank" then
          ["Lack of frontline protection"] else [])
      .ok {
        champions := acc.team_data
        archetype := team_archetype
        avg_attack := avgA
        avg_defense := avgD
        avg_magic := avgM
        avg_difficulty := avgDiff
        role_diversity := role_count
        unique_roles := unique_tags
        strengths := strengths
        weaknesses := weaknesses
        enemy_roles :=
          if enemy_champions = [] then none
          else some (enemy_tags_of championsData enemy_champions).dedup }

/-- CHAMPION_SYNERGIES (get_match_outcome source lines 33-40). -/
def CHAMPION_SYNERGIES : List (String × List String) :=
  [("Tank", ["Marksman", "Mage"]), ("Fighter", ["Support", "Mage"]),
   ("Assassin", ["Tank", "Support"]), ("Mage", ["Tank", "Support"]),
   ("Marksman", ["Tank", "Support"]), ("Support", ["Marksman", "Mage"])]

/-- The synergy bonus of analyze_team (source lines 114-123): twice the
number of unique tags, plus 3 per ordered synergy pair present. -/
def synergy_bonus_of (unique_tags : List String) : ℕ :=
  unique_tags.foldl
    (fun s tag =>
      match CHAMPION_SYNERGIES.find? fun kv => kv.1 = tag with
      | some kv =>
        kv.2.foldl (fun s2 syn => if unique_tags.contains syn then s2 + 3 else s2) s
      | none => s)
    (unique_tags.length * 2)

/-- The composition_score block analyze_team returns (source lines
125-143). -/
structure TeamAnalysis where
  champions : List ChampInfo
  attack : ℚ
  defense : ℚ
  magic : ℚ
  difficulty : ℚ
  synergy : ℕ
  team_tags : List String
  deriving Repr, DecidableEq

/-- analyze_team of get_match_outcome (source lines 88-143): hard 404
on any lookup miss, rounded stat averages over the 5 rows, synergy
bonus over the unique tag set. -/
def analyze_team (championsData : List (String × ChampInfo))
    (team_champions : List String) : Except (ℕ × String) TeamAnalysis :=
  match analyzeOwnTeam championsData team_champions with
  | .error e => .error e
  | .ok acc =>
    let unique_tags := acc.all_tags.dedup
    .ok {
      champions := acc.team_data
      attack := pyRound (acc.attack / 5) 1
      defense := pyRound (acc.defense / 5) 1
      magic := pyRound (acc.magic / 5) 1
      difficulty := pyRound (acc.difficulty / 5) 1
      synergy := synergy_bonus_of unique_tags
      team_tags := unique_tags }

/-- rank_difficulty_multiplier.get(average_rank.upper(), 0.8) (source
lines 169-174). -/
def rank_difficulty_multiplier (average_rank : String) : ℚ :=
  let r := strUpper average_rank
  if r = "IRON" then 1/2
  else if r = "BRONZE" then 3/5
  else if r = "SILVER" then 7/10
  else if r = "GOLD" then 4/5
  else if r = "PLATINUM" then 9/10
  else if r = "DIAMOND" then 1
  else if r = "MASTER+" then 11/10
  else 4/5

/-- The ARAM tag bonus of source lines 181-195. -/
def aram_bonus_of (team_tags : List String) : ℚ :=
  (if team_tags.contains "Mage" then 5 else 0) +
  (if team_tags.contains "Marksman" then 3 else 0) +
  (if team_tags.contains "Support" then 4 else 0)

/-- One team composite score (source lines 150-199): twice the balance
average, plus synergy, plus difficulty scaled by the rank multiplier,
plus the ARAM bonus when applicable, plus the uniform random
adjustment in [-5, 5], which is passed in explicitly. -/
def team_score (ta : TeamAnalysis) (game_mode average_rank : String) (adj : ℚ) : ℚ :=
  (ta.attack + ta.defense + ta.magic) / 3 * 2 + (ta.synergy : ℚ) +
  ta.difficulty * rank_difficulty_multiplier average_rank +
  (if game_mode = "ARAM" then aram_bonus_of ta.team_tags else 0) + adj

/-- The probability computation of source lines 201-208: ratio of
composites (50 when the total is not positive), clamp of the blue
value to [25, 75], and recomputation of the red value as the
complement of the clamped blue value. -/
def win_probabilities (blue_score red_score : ℚ) : ℚ × ℚ :=
  let total_score := blue_score + red_score
  let blue_win_prob := if total_score > 0 then blue_score / total_score * 100 else 50
  let blue_clamped := max 25 (min 75 blue_win_prob)
  (blue_clamped, 100 - blue_clamped)

/-- The response fields of get_match_outcome the claims consult. -/
structure OutcomePrediction where
  blue_team_win_probability : ℚ
  red_team_win_probability : ℚ
  predicted_winner : String
  blue_analysis : TeamAnalysis
  red_analysis : TeamAnalysis
  deriving Repr, DecidableEq

/-- Pure core of get_match_outcome: length guard (source lines 73-74),
both teams analyzed with hard 404 on lookup miss, composite scores
with the injected random adjustments, clamped win probabilities
rounded to one decimal (source lines 241-247). -/
def get_match_outcome (championsData : List (String × ChampInfo))
    (blue_team red_team : List String) (game_mode average_rank : String)
    (blue_adj red_adj : ℚ) : Except (ℕ × String) OutcomePrediction :=
  if blue_team.length ≠ 5 ∨ red_team.length ≠ 5 then
    .error (400, "Each team must have exactly 5 champions.")
  else
    match analyze_team championsData blue_team with
    | .error e => .error e
    | .ok blue_analysis =>
      match analyze_team championsData red_team with
      | .error e => .error e
      | .ok red_analysis =>
        let blue_score := team_score blue_analysis game_mode average_rank blue_adj
        let red_score := team_score red_analysis game_mode average_rank red_adj
        let probs := win_probabilities blue_score red_score
        .ok {
          blue_team_win_probability := pyRound probs.1 1
          red_team_win_probability := pyRound probs.2 1
          predicted_winner := if probs.1 > probs.2 then "Blue Team" else "Red Team"
          blue_analysis := blue_analysis
          red_analysis := red_analysis }

/-! ## Platform resolution (get_summoner_info, get_ranked_stats)

Both endpoints run the same probe loop over the configured platform
list (get_summoner_info lines 86-107, get_ranked_stats lines 148-169):
HTTP 200 parses the body, stores the platform and breaks; HTTP 404
advances; any other status or a transport error records a last_error
string and advances.  The upstream is abstracted as a function from
platform code to probe outcome; the parsed body type is a parameter,
together with its Python truthiness (get_summoner_info checks
not summoner_data, get_ranked_stats checks ranked_data is None).
-/

/-- Outcome of one platform probe. -/
inductive ProbeResult (β : Type) where
  | ok (body : β)
  | notFound
  | httpError (status : ℕ) (text : String)
  | connError (msg : String)
  deriving Repr, DecidableEq

/-- Whether a probe outcome is an HTTP 200. -/
def ProbeResult.isOk {β : Type} : ProbeResult β → Bool
  | .ok _ => true
  | _ => false

/-- The probe loop shared by both endpoints: returns the platform and
body of the first HTTP 200 (leaving later candidates unprobed) along
with the last_error recorded up to that point, or none and the final
last_error when the candidate list is exhausted. -/
def probeLoop {β : Type} (probe : String → ProbeResult β) (last_error : Option String) :
    List String → Option (String × β) × Option String
  | [] => (none, last_error)
  | platform :: rest =>
    match probe (strLower platform) with
    | .ok body => (some (strLower platform, body), last_error)
    | .notFound => probeLoop probe last_error rest
    | .httpError status text =>
      probeLoop probe
        (some ("Platform " ++ strLower platform ++ ": " ++ toString status ++ " - " ++ text)) rest
    | .connError msg =>
      probeLoop probe
        (some ("Platform " ++ strLower platform ++ ": Connection error - " ++ msg)) rest

/-- The last_error value after scanning a list of candidates none of
which answered HTTP 200. -/
def lastErrorOf {β : Type} (probe : String → ProbeResult β) (init : Option String) :
    List String → Option String
  | [] => init
  | platform :: rest =>
    match probe (strLower platform) with
    | .httpError status text =>
      lastErrorOf probe
        (some ("Platform " ++ strLower platform ++ ": " ++ toString status ++ " - " ++ text)) rest
    | .connError msg =>
      lastErrorOf probe
        (some ("Platform " ++ strLower platform ++ ": Connection error - " ++ msg)) rest
    | _ => lastErrorOf probe init rest

/-- Pure core of get_summoner_info (source lines 82-132): run the
probe loop; afterwards, when no truthy body was obtained, fail 500
with the last recorded error if any, else 404; otherwise return the
platform and body. -/
def get_summoner_info {β : Type} (falsy : β → Bool) (region : String)
    (platforms : List String) (probe : String → ProbeResult β) :
    Except (ℕ × String) (String × β) :=
  match probeLoop probe none platforms with
  | (some (platform, body), last_error) =>
    if falsy body then
      match last_error with
      | some e => .error (500,
          "Failed to find summoner in " ++ region ++ " region. Last error: " ++ e)
      | none => .error (404,
          "Summoner not found in any platform within " ++ region ++ " region.")
    else .ok (platform, body)
  | (none, some e) => .error (500,
      "Failed to find summoner in " ++ region ++ " region. Last error: " ++ e)
  | (none, none) => .error (404,
      "Summoner not found in any platform within " ++ region ++ " region.")

/-- Pure core of the ranked-data probe of get_ranked_stats (source
lines 144-177): identical loop, but the post-loop check is
ranked_data is None, so any HTTP 200 returns. -/
def get_ranked_stats {β : Type} (region : String)
    (platforms : List String) (probe : String → ProbeResult β) :
    Except (ℕ × String) (String × β) :=
  match probeLoop probe none platforms with
  | (some (platform, body), _) => .ok (platform, body)
  | (none, some e) => .error (500,
      "Failed to find ranked data in " ++ region ++ " region. Last error: " ++ e)
  | (none, none) => .error (404,
      "Summoner not found in any platform within " ++ region ++ " region.")

/-- The running-best fold pattern of the archetype selection. -/
def pickBest (acc : String × ℕ) (scores : List (String × ℕ)) : String × ℕ :=
  scores.foldl (fun best e => if e.2 > best.2 then e else best) acc

/-- The highest score in a score list (0 for the empty list). -/
def maxScore (scores : List (String × ℕ)) : ℕ :=
  scores.foldr (fun e m => max e.2 m) 0

/-- The archetype score list in table order. -/
def archetype_scores (unique_tags : List String) : List (String × ℕ) :=
  TEAM_ARCHETYPES.map fun en => (en.1, archetype_score unique_tags en.2.1 en.2.2)

/-- The archetype selection rule as claim C9 words it: the archetype
with the strictly highest score, the earliest entry on ties, and
Balanced when no archetype scores above zero. -/
def spec_archetype (unique_tags : List String) : String :=
  if maxScore (archetype_scores unique_tags) = 0 then "Balanced"
  else
    match (archetype_scores unique_tags).find?
        (fun x => x.2 == maxScore (archetype_scores unique_tags)) with
    | some e => e.1
    | none => "Balanced"

/-- Invariant of the runes match loop: the overall tree and keystone
counters each total the number of collected rune rows, and the
champion_runes map is nonempty as soon as a row exists. -/
def RunesInv (st : RunesState) : Prop :=
  sumCounts st.primary_trees = st.rune_data.length ∧
  sumCounts st.secondary_trees = st.rune_data.length ∧
  sumCounts st.keystone_runes = st.rune_data.length ∧
  (st.rune_data ≠ [] → st.champion_runes ≠ [])

/-- Whether the first perks style of a participant carries at least one
selection (true for every real match payload; when it fails, the
source would raise a NameError on its first such match). -/
def head_style_has_selection (p : Participant) : Bool :=
  match p.perksStyles with
  | s :: _ => !s.selections.isEmpty
  | [] => true

/-! ## Concrete inputs used in evaluations and witnesses -/

/-- Whether an Except value is a success. -/
def exceptIsOk {ε α : Type} : Except ε α → Bool
  | .ok _ => true
  | .error _ => false

def c1_ally : Participant :=
  ⟨"ALLY", 100, "Garen", "TOP", 3, 2, 1, 0, 0, 0, 0, 0, false, 4, 12, []⟩

def c1_player : Participant :=
  ⟨"P", 100, "Ahri", "MID", 2, 1, 3, 0, 0, 0, 0, 0, true, 4, 14, []⟩

def c1_match : MatchData := ⟨"M1", 1800, [c1_ally, c1_player]⟩

def c2_participant (w : Bool) : Participant :=
  ⟨"P", 100, "Ahri", "MID", 1, 1, 1, 90, 0, 900, 10, 600, w, 4, 14, []⟩

def c2_matches : List MatchData :=
  [⟨"M1", 1800, [c2_participant true]⟩, ⟨"M2", 1800, [c2_participant false]⟩,
   ⟨"M3", 1800, [c2_participant false]⟩, ⟨"M4", 1800, [c2_participant false]⟩,
   ⟨"M5", 1800, [c2_participant false]⟩, ⟨"M6", 1800, [c2_participant false]⟩]

def c3_player : Participant :=
  ⟨"P", 100, "Ahri", "MID", 1, 1, 1, 0, 0, 0, 0, 0, true, 4, 14, []⟩

def c3_matches : List MatchData := [⟨"M1", 1800, [c3_player]⟩, ⟨"M2", 1800, [c3_player]⟩]

def c4_catalog : List (String × ChampInfo) :=
  [("Malphite", ⟨"Malphite", "Shard", ["Tank", "Fighter"], 5, 9, 7, 2⟩),
   ("Lux", ⟨"Lux", "Lady", ["Mage", "Support"], 2, 4, 9, 5⟩),
   ("Jinx", ⟨"Jinx", "Cannon", ["Marksman"], 9, 2, 4, 6⟩),
   ("Thresh", ⟨"Thresh", "Warden", ["Support", "Fighter"], 5, 6, 6, 7⟩),
   ("Garen", ⟨"Garen", "Might", ["Fighter", "Tank"], 7, 7, 4, 5⟩)]

def c4_team : List String := ["Malphite", "Lux", "Jinx", "Thresh", "Garen"]

def c4_enemy : List String := ["Lux", "Jinx", "Thresh", "Garen", "Voidling"]

def c5_champ : ChampInfo := ⟨"Ahri", "Fox", [], 3, 4, 8, 5⟩

def c5_catalog : List (String × ChampInfo) := [("Ahri", c5_champ)]

def c5_team : List String := ["Ahri", "Ahri", "Ahri", "Ahri", "Ahri"]

def c6_probe : String → ProbeResult ℕ := fun pl =>
  if pl = "br1" then .ok 7 else if pl = "na1" then .notFound else .httpError 503 "busy"

def c7_probe : String → ProbeResult ℕ := fun pl =>
  if pl = "na1" then .httpError 503 "busy" else .notFound

def c10_p1 : Participant :=
  ⟨"P", 100, "Ahri", "MID", 1, 1, 1, 0, 0, 0, 0, 0, true, 4, 14,
    [⟨8200, [8214]⟩, ⟨8300, []⟩]⟩

def c10_p2 : Participant :=
  ⟨"P", 100, "Lux", "MID", 1, 1, 1, 0, 0, 0, 0, 0, false, 4, 14,
    [⟨8200, [8214]⟩, ⟨8400, []⟩]⟩

def c10_matches : List MatchData := [⟨"M1", 1800, [c10_p1]⟩, ⟨"M2", 1800, [c10_p2]⟩]

def c10_result : RunesResult :=
  ⟨2, [("Sorcery", 2)], [("Resolve", 1), ("Inspiration", 1)], [(8214, 2)],
    [("Ahri", ⟨[("Sorcery", 1)], [("Resolve", 1)], [(8214, 1)], 1⟩)]⟩

def c8_player : Participant :=
  ⟨"P", 100, "Ahri", "MID", 2, 0, 3, 0, 0, 0, 0, 0, true, 4, 14, []⟩

theorem rhe_eq_of_floor (x : ℚ) (n : ℤ) (h : ⌊x⌋ = n) :
    rhe x = if x - n < 1/2 then n
      else if 1/2 < x - n then n + 1
      else if Even n then n else n + 1 := by
  unfold rhe
  rw [h]

theorem rhe_cases (x : ℚ) : rhe x = ⌊x⌋ ∨ rhe x = ⌊x⌋ + 1 := by
  unfold rhe
  split_ifs <;> simp

theorem rhe_le (x : ℚ) (b : ℤ) (h : x ≤ b) : rhe x ≤ b := by
  rcases rhe_cases x with h1 | h1
  · rw [h1]
    exact (Int.floor_le_floor h).trans_eq (Int.floor_intCast b)
  · rw [h1]
    by_contra hc
    push_neg at hc
    have hb : b ≤ ⌊x⌋ := by omega
    have hbx : (b : ℚ) ≤ x := le_trans (by exact_mod_cast hb) (Int.floor_le x)
    have hxb : x = b := le_antisymm h hbx
    have hfb : ⌊x⌋ = b := by rw [hxb]; exact Int.floor_intCast b
    have hf : x - (⌊x⌋ : ℚ) < 1/2 := by
      rw [hfb, hxb]; norm_num
    unfold rhe at h1
    rw [if_pos hf] at h1
    omega

theorem le_rhe (x : ℚ) (a : ℤ) (h : (a : ℚ) ≤ x) : a ≤ rhe x := by
  have hfl : a ≤ ⌊x⌋ := Int.le_floor.mpr h
  rcases rhe_cases x with h1 | h1 <;> omega

/-- Round-half-even complement identity for the even total 1000. -/
theorem rhe_complement (x : ℚ) : rhe x + rhe (1000 - x) = 1000 := by
  have hfl : (⌊x⌋ : ℚ) ≤ x := Int.floor_le x
  have hfu : x < ⌊x⌋ + 1 := Int.lt_floor_add_one x
  set n := ⌊x⌋ with hn
  by_cases h0 : x = n
  · have h1 : rhe x = n := by
      rw [rhe_eq_of_floor x n hn.symm, h0]
      norm_num
    have hc2 : ⌊(1000 : ℚ) - x⌋ = 1000 - n := by
      rw [h0]
      rw [show (1000 : ℚ) - (n : ℚ) = ((1000 - n : ℤ) : ℚ) by push_cast; ring]
      exact Int.floor_intCast _
    have h2 : rhe (1000 - x) = 1000 - n := by
      rw [rhe_eq_of_floor _ _ hc2, h0]
      have : (1000 : ℚ) - (n : ℚ) - ((1000 - n : ℤ) : ℚ) = 0 := by push_cast; ring
      rw [this]
      norm_num
    omega
  · have hx0 : (n : ℚ) < x := lt_of_le_of_ne hfl fun heq => h0 heq.symm
    have hcfl : ⌊(1000 : ℚ) - x⌋ = 999 - n := by
      rw [Int.floor_eq_iff]
      constructor
      · push_cast; linarith
      · push_cast; linarith
    have h1 := rhe_eq_of_floor x n hn.symm
    have h2 := rhe_eq_of_floor _ _ hcfl
    have hg : (1000 : ℚ) - x - ((999 - n : ℤ) : ℚ) = 1 - (x - n) := by
      push_cast; ring
    rw [hg] at h2
    rcases lt_trichotomy (x - (n : ℚ)) (1/2) with hlt | heq | hgt
    · rw [if_pos hlt] at h1
      have ha : ¬ ((1 : ℚ) - (x - n) < 1/2) := by push_neg; linarith
      have hb : (1/2 : ℚ) < 1 - (x - n) := by linarith
      rw [if_neg ha, if_pos hb] at h2
      omega
    · rw [heq] at h1 h2
      norm_num at h1 h2
      by_cases hev : Even n
      · have hodd : ¬ Even (999 - n) := by
          rcases hev with ⟨k, hk⟩
          rintro ⟨j, hj⟩
          omega
        rw [if_pos hev] at h1
        rw [if_neg hodd] at h2
        omega
      · have hev2 : Even (999 - n) := by
          rcases Int.even_or_odd n with he | ho
          · exact absurd he hev
          · rcases ho with ⟨k, hk⟩
            exact ⟨499 - k, by omega⟩
        rw [if_neg hev] at h1
        rw [if_pos hev2] at h2
        omega
    · have ha : ¬ (x - (n : ℚ) < 1/2) := by push_neg; linarith
      rw [if_neg ha, if_pos hgt] at h1
      have hb : (1 : ℚ) - (x - n) < 1/2 := by linarith
      rw [if_pos hb] at h2
      omega

/-- pyRound with one decimal stays inside integral bounds. -/
theorem pyRound1_bounds (x : ℚ) (a b : ℤ) (ha : (a : ℚ) ≤ x) (hb : x ≤ b) :
    (a : ℚ) ≤ pyRound x 1 ∧ pyRound x 1 ≤ b := by
  unfold pyRound
  have h10 : (0 : ℚ) < (10 : ℚ) ^ 1 := by norm_num
  have hlo : ((10 * a : ℤ) : ℚ) ≤ x * (10 : ℚ) ^ 1 := by
    push_cast; nlinarith
  have hhi : x * (10 : ℚ) ^ 1 ≤ ((10 * b : ℤ) : ℚ) := by
    push_cast; nlinarith
  have h1 := le_rhe _ _ hlo
  have h2 := rhe_le _ _ hhi
  constructor
  · rw [le_div_iff₀ h10]
    calc (a : ℚ) * (10 : ℚ) ^ 1 = ((10 * a : ℤ) : ℚ) := by push_cast; ring
    _ ≤ (rhe (x * (10 : ℚ) ^ 1) : ℚ) := by exact_mod_cast h1
  · rw [div_le_iff₀ h10]
    calc (rhe (x * (10 : ℚ) ^ 1) : ℚ) ≤ ((10 * b : ℤ) : ℚ) := by exact_mod_cast h2
    _ = (b : ℚ) * (10 : ℚ) ^ 1 := by push_cast; ring

/-- pyRound with one decimal preserves the complement to 100. -/
theorem pyRound1_complement (x : ℚ) : pyRound x 1 + pyRound (100 - x) 1 = 100 := by
  unfold pyRound
  rw [show (100 - x) * (10 : ℚ) ^ 1 = 1000 - x * (10 : ℚ) ^ 1 by ring]
  rw [div_add_div_same]
  have hc := rhe_complement (x * (10 : ℚ) ^ 1)
  have hq : ((rhe (x * (10 : ℚ) ^ 1) : ℚ) + (rhe (1000 - x * (10 : ℚ) ^ 1) : ℚ)) = 1000 := by
    exact_mod_cast congrArg (fun z : ℤ => (z : ℚ)) hc
  rw [hq]
  norm_num

theorem probeLoop_exhausted {β : Type} (probe : String → ProbeResult β)
    (e : Option String) (l : List String)
    (h : ∀ q ∈ l, (probe (strLower q)).isOk = false) :
    probeLoop probe e l = (none, lastErrorOf probe e l) := by
  induction l generalizing e with
  | nil => rfl
  | cons p rest ih =>
    have hp : (probe (strLower p)).isOk = false := h p (List.mem_cons_self p rest)
    have hrest : ∀ q ∈ rest, (probe (strLower q)).isOk = false :=
      fun q hq => h q (List.mem_cons_of_mem p hq)
    unfold probeLoop lastErrorOf
    cases hpr : probe (strLower p) with
    | ok body => rw [hpr] at hp; simp [ProbeResult.isOk] at hp
    | notFound => exact ih e hrest
    | httpError s t => exact ih _ hrest
    | connError m => exact ih _ hrest

theorem probeLoop_first_success {β : Type} (probe : String → ProbeResult β)
    (e : Option String) (l₁ l₂ : List String) (p : String) (b : β)
    (h : ∀ q ∈ l₁, (probe (strLower q)).isOk = false)
    (hp : probe (strLower p) = .ok b) :
    probeLoop probe e (l₁ ++ p :: l₂) = (some (strLower p, b), lastErrorOf probe e l₁) := by
  induction l₁ generalizing e with
  | nil =>
    simp only [List.nil_append]
    unfold probeLoop
    rw [hp]
    rfl
  | cons q rest ih =>
    have hq : (probe (strLower q)).isOk = false := h q (List.mem_cons_self q rest)
    have hrest : ∀ r ∈ rest, (probe (strLower r)).isOk = false :=
      fun r hr => h r (List.mem_cons_of_mem q hr)
    simp only [List.cons_append]
    unfold probeLoop lastErrorOf
    cases hqr : probe (strLower q) with
    | ok body => rw [hqr] at hq; simp [ProbeResult.isOk] at hq
    | notFound => exact ih e hrest
    | httpError s t => exact ih _ hrest
    | connError m => exact ih _ hrest

/-! ## Helper lemmas -/

theorem analyzeOwnTeam_miss (championsData : List (String × ChampInfo))
    (team : List String) (name : String)
    (hmem : name ∈ team) (hmiss : get_champion_info championsData name = none) :
    ∃ msg, analyzeOwnTeam championsData team = .error (404, msg) := by
  induction team with
  | nil => cases hmem
  | cons h t ih =>
    unfold analyzeOwnTeam
    cases hh : get_champion_info championsData h with
    | none => exact ⟨"Champion not found: " ++ h, rfl⟩
    | some ci =>
      have hne : h ≠ name := by
        intro heq
        rw [heq, hmiss] at hh
        cases hh
      have hmem2 : name ∈ t := by
        cases hmem with
        | head => exact absurd rfl hne
        | tail _ hm => exact hm
      obtain ⟨msg, herr⟩ := ih hmem2
      rw [herr]
      exact ⟨msg, rfl⟩

theorem analyzeOwnTeam_error_code (championsData : List (String × ChampInfo))
    (team : List String) (e : ℕ × String)
    (h : analyzeOwnTeam championsData team = .error e) : e.1 = 404 := by
  induction team with
  | nil => cases h
  | cons hd t ih =>
    unfold analyzeOwnTeam at h
    cases hh : get_champion_info championsData hd with
    | none =>
      rw [hh] at h
      cases h
      rfl
    | some ci =>
      rw [hh] at h
      cases ht : analyzeOwnTeam championsData t with
      | error e2 =>
        rw [ht] at h
        cases h
        exact ih ht
      | ok acc =>
        rw [ht] at h
        cases h

theorem analyze_team_miss (championsData : List (String × ChampInfo))
    (team : List String) (name : String)
    (hmem : name ∈ team) (hmiss : get_champion_info championsData name = none) :
    ∃ msg, analyze_team championsData team = .error (404, msg) := by
  obtain ⟨msg, herr⟩ := analyzeOwnTeam_miss championsData team name hmem hmiss
  refine ⟨msg, ?_⟩
  unfold analyze_team
  rw [herr]

theorem analyze_team_error_code (championsData : List (String × ChampInfo))
    (team : List String) (e : ℕ × String)
    (h : analyze_team championsData team = .error e) : e.1 = 404 := by
  unfold analyze_team at h
  cases ht : analyzeOwnTeam championsData team with
  | error e2 =>
    rw [ht] at h
    injection h with h2
    subst h2
    exact analyzeOwnTeam_error_code championsData team e2 ht
  | ok acc =>
    rw [ht] at h
    cases h

theorem foldl_if_add (tags l : List String) (c a : ℕ) :
    l.foldl (fun s t => if tags.contains t then s + c else s) a
      = a + c * l.countP (fun t => tags.contains t) := by
  induction l generalizing a with
  | nil => simp
  | cons h t ih =>
    rw [List.foldl_cons, List.countP_cons]
    cases hh : tags.contains h
    · rw [if_neg (by simp [hh]), ih]
      simp
    · rw [if_pos (by simp [hh]), ih]
      simp
      ring

theorem maxScore_cons (e : String × ℕ) (t : List (String × ℕ)) :
    maxScore (e :: t) = max e.2 (maxScore t) := rfl

theorem pickBest_of_le (acc : String × ℕ) (l : List (String × ℕ))
    (h : maxScore l ≤ acc.2) : pickBest acc l = acc := by
  induction l generalizing acc with
  | nil => rfl
  | cons e t ih =>
    rw [maxScore_cons] at h
    unfold pickBest
    simp only [List.foldl_cons]
    have he : ¬ (e.2 > acc.2) := by omega
    rw [if_neg he]
    exact ih acc (by omega)

theorem pickBest_of_lt (acc : String × ℕ) (l : List (String × ℕ))
    (h : acc.2 < maxScore l) :
    ∃ e, l.find? (fun x => x.2 == maxScore l) = some e ∧ pickBest acc l = e := by
  induction l generalizing acc with
  | nil =>
    simp [maxScore] at h
  | cons e t ih =>
    rw [maxScore_cons] at h
    by_cases hle : maxScore t ≤ e.2
    · have hM : max e.2 (maxScore t) = e.2 := max_eq_left hle
      refine ⟨e, ?_, ?_⟩
      · rw [List.find?_cons]
        have : (e.2 == maxScore (e :: t)) = true := by
          rw [maxScore_cons, hM]
          exact beq_self_eq_true e.2
        rw [this]
      · unfold pickBest
        simp only [List.foldl_cons]
        have hgt : e.2 > acc.2 := by omega
        rw [if_pos hgt]
        exact pickBest_of_le e t (by omega)
    · push_neg at hle
      have hM : max e.2 (maxScore t) = maxScore t := max_eq_right (le_of_lt hle)
      rw [hM] at h
      set acc2 := if e.2 > acc.2 then e else acc with hacc2
      have hacc2lt : acc2.2 < maxScore t := by
        rw [hacc2]
        split <;> omega
      obtain ⟨e2, hfind, hpick⟩ := ih acc2 hacc2lt
      refine ⟨e2, ?_, ?_⟩
      · rw [List.find?_cons]
        have hne : (e.2 == maxScore (e :: t)) = false := by
          rw [maxScore_cons, hM]
          exact beq_eq_false_iff_ne.mpr (by omega)
        rw [hne]
        rw [maxScore_cons, hM]
        exact hfind
      · unfold pickBest
        simp only [List.foldl_cons]
        exact hpick

theorem select_archetype_eq_pickBest (unique_tags : List String) :
    select_archetype unique_tags = pickBest ("Balanced", 0) (archetype_scores unique_tags) := by
  unfold select_archetype pickBest archetype_scores
  rw [List.foldl_map]

theorem bump_sumCounts {α : Type} [DecidableEq α] (c : List (α × ℕ)) (k : α) :
    sumCounts (bump c k) = sumCounts c + 1 := by
  induction c with
  | nil => rfl
  | cons kv rest ih =>
    unfold bump
    by_cases h : kv.1 = k
    · rw [if_pos h]
      simp [sumCounts]
      omega
    · rw [if_neg h]
      simp only [sumCounts, List.map_cons, List.sum_cons] at ih ⊢
      omega

theorem bumpChampion_ne_nil (cr : List (String × ChampRunes)) (c p s : String) (k : ℕ) :
    bumpChampion cr c p s k ≠ [] := by
  cases cr with
  | nil => simp [bumpChampion]
  | cons kv rest =>
    unfold bumpChampion
    split <;> simp

theorem runesAddRow_inv (st : RunesState) (m : MatchData) (pd : Participant)
    (s1 s2 : RuneStyle) (hsel : s1.selections ≠ []) (hinv : RunesInv st) :
    ∃ st2, runesAddRow st m pd s1 s2 = .ok st2 ∧ RunesInv st2 := by
  obtain ⟨h1, h2, h3, h4⟩ := hinv
  cases hks : s1.selections with
  | nil => exact absurd hks hsel
  | cons k ktl =>
    have heq : runesAddRow st m pd s1 s2 = .ok {
        rune_data := st.rune_data ++
          [⟨m.matchId, pd.championName, rune_tree_name s1.style,
            rune_tree_name s2.style, k, pd.win⟩]
        primary_trees := bump st.primary_trees (rune_tree_name s1.style)
        secondary_trees := bump st.secondary_trees (rune_tree_name s2.style)
        keystone_runes := bump st.keystone_runes k
        champion_runes := bumpChampion st.champion_runes pd.championName
          (rune_tree_name s1.style) (rune_tree_name s2.style) k
        keystone_id := some k } := by
      unfold runesAddRow
      rw [hks]
    refine ⟨_, heq, ?_, ?_, ?_, ?_⟩
    · simp only [bump_sumCounts, List.length_append, List.length_cons, List.length_nil]
      simp [h1]
    · simp only [bump_sumCounts, List.length_append, List.length_cons, List.length_nil]
      simp [h2]
    · simp only [bump_sumCounts, List.length_append, List.length_cons, List.length_nil]
      simp [h3]
    · intro _
      exact bumpChampion_ne_nil _ _ _ _ _

theorem runesProcessMatch_inv (puuid : String) (filter : Option String)
    (st : RunesState) (m : MatchData)
    (hm : ∀ p ∈ m.participants, head_style_has_selection p = true)
    (hinv : RunesInv st) :
    ∃ st2, runesProcessMatch puuid filter st m = .ok st2 ∧ RunesInv st2 := by
  unfold runesProcessMatch
  cases hfp : find_player puuid m.participants with
  | none => exact ⟨st, rfl, hinv⟩
  | some pd =>
    have hpd : pd ∈ m.participants := List.mem_of_find?_eq_some hfp
    have hsel := hm pd hpd
    simp only [hfp]
    cases hskip : champion_filter_skips filter pd.championName with
    | true =>
      refine ⟨st, ?_, hinv⟩
      simp [hskip]
    | false =>
      rw [if_neg (by simp [hskip])]
      cases hstyles : pd.perksStyles with
      | nil => exact ⟨st, rfl, hinv⟩
      | cons s1 tl =>
        cases tl with
        | nil => exact ⟨st, rfl, hinv⟩
        | cons s2 tl2 =>
          refine runesAddRow_inv st m pd s1 s2 ?_ ⟨hinv.1, hinv.2.1, hinv.2.2.1, hinv.2.2.2⟩
          unfold head_style_has_selection at hsel
          rw [hstyles] at hsel
          simpa using hsel

theorem runesFold_inv (puuid : String) (filter : Option String) :
    ∀ (l : List MatchData) (st : RunesState),
      (∀ m ∈ l, ∀ p ∈ m.participants, head_style_has_selection p = true) →
      RunesInv st →
      ∃ st2, runesFold puuid filter st l = .ok st2 ∧ RunesInv st2 := by
  intro l
  induction l with
  | nil =>
    intro st _ hinv
    exact ⟨st, rfl, hinv⟩
  | cons m rest ih =>
    intro st hl hinv
    obtain ⟨st2, hstep, hinv2⟩ :=
      runesProcessMatch_inv puuid filter st m (hl m (List.mem_cons_self _ _)) hinv
    obtain ⟨st3, hfold, hinv3⟩ :=
      ih st2 (fun m2 hm2 => hl m2 (List.mem_cons_of_mem _ hm2)) hinv2
    unfold runesFold
    rw [hstep]
    exact ⟨st3, hfold, hinv3⟩

theorem win_probabilities_clamp (bs rs : ℚ) :
    25 ≤ (win_probabilities bs rs).1 ∧ (win_probabilities bs rs).1 ≤ 75 ∧
    (win_probabilities bs rs).2 = 100 - (win_probabilities bs rs).1 := by
  unfold win_probabilities
  exact ⟨le_max_left _ _, max_le (by norm_num) (min_le_left _ _), rfl⟩

/-- C5: for every outcome-prediction request that returns, and every
value of the injected random adjustments, the returned rounded win
probabilities each lie in [25, 75] and sum to exactly 100, the red
value being the complement of the clamped blue value. -/
theorem outcome_probabilities_clamped_and_complementary
    (championsData : List (String × ChampInfo)) (blue_team red_team : List String)
    (game_mode average_rank : String) (blue_adj red_adj : ℚ) (res : OutcomePrediction)
    (h : get_match_outcome championsData blue_team red_team game_mode average_rank
      blue_adj red_adj = .ok res) :
    25 ≤ res.blue_team_win_probability ∧ res.blue_team_win_probability ≤ 75 ∧
    25 ≤ res.red_team_win_probability ∧ res.red_team_win_probability ≤ 75 ∧
    res.blue_team_win_probability + res.red_team_win_probability = 100 := by
  unfold get_match_outcome at h
  by_cases hlen : blue_team.length ≠ 5 ∨ red_team.length ≠ 5
  · rw [if_pos hlen] at h
    cases h
  · rw [if_neg hlen] at h
    cases hb : analyze_team championsData blue_team with
    | error e =>
      rw [hb] at h
      cases h
    | ok ba =>
      rw [hb] at h
      cases hr : analyze_team championsData red_team with
      | error e =>
        rw [hr] at h
        cases h
      | ok ra =>
        rw [hr] at h
        injection h with h2
        subst h2
        set bs := team_score ba game_mode average_rank blue_adj with hbs
        set rs := team_score ra game_mode average_rank red_adj with hrs
        obtain ⟨hc1, hc2, hc3⟩ := win_probabilities_clamp bs rs
        have hblue := pyRound1_bounds (win_probabilities bs rs).1 25 75
          (by exact_mod_cast hc1) (by exact_mod_cast hc2)
        have hred := pyRound1_bounds (win_probabilities bs rs).2 25 75
          (by rw [hc3]; push_cast; linarith) (by rw [hc3]; push_cast; linarith)
        refine ⟨by exact_mod_cast hblue.1, by exact_mod_cast hblue.2,
          by exact_mod_cast hred.1, by exact_mod_cast hred.2, ?_⟩
        show pyRound (win_probabilities bs rs).1 1 + pyRound (win_probabilities bs rs).2 1 = 100
        rw [hc3]
        exact pyRound1_complement (win_probabilities bs rs).1

/-- C8: the KDA computation divides by max(deaths, 1): with zero
deaths the denominator is 1 and kda is kills plus assists, and for
every record the denominator is positive, so no division by zero
occurs. -/
theorem kda_denominator_floored (p : Participant) :
    (p.deaths = 0 → kda_value p.kills p.deaths p.assists = (p.kills : ℚ) + (p.assists : ℚ)) ∧
    (0 : ℚ) < ((max p.deaths 1 : ℕ) : ℚ) := by
  constructor
  · intro h0
    unfold kda_value
    rw [h0]
    norm_num
  · have h1 : (1 : ℕ) ≤ max p.deaths 1 := le_max_right _ _
    exact_mod_cast lt_of_lt_of_le Nat.zero_lt_one h1

/-- C9: archetype classification scores each table entry as three times
its required tags present in the team tag set plus its bonus tags
present, and the selection loop picks the strictly highest score,
keeping the earliest entry on ties and Balanced when no score is
positive: it coincides with the specification-side rule. -/
theorem archetype_selection_first_max (unique_tags : List String) :
    (select_archetype unique_tags).1 = spec_archetype unique_tags ∧
    (∀ required bonus : List String,
      archetype_score unique_tags required bonus =
        3 * required.countP (fun t => unique_tags.contains t) +
          bonus.countP (fun t => unique_tags.contains t)) := by
  constructor
  · rw [select_archetype_eq_pickBest]
    unfold spec_archetype
    by_cases hmax : maxScore (archetype_scores unique_tags) = 0
    · rw [if_pos hmax]
      rw [pickBest_of_le ("Balanced", 0) (archetype_scores unique_tags) hmax.le]
    · rw [if_neg hmax]
      obtain ⟨e, hfind, hpick⟩ := pickBest_of_lt ("Balanced", 0)
        (archetype_scores unique_tags) (Nat.pos_of_ne_zero hmax)
      rw [hpick, hfind]
  · intro required bonus
    unfold archetype_score
    rw [foldl_if_add, foldl_if_add]
    ring

/-- C4 (amended): a catalog miss on the own team aborts team
composition with 404; a miss on either team aborts outcome prediction
with 404; but a miss in the optional enemy list of team composition is
skipped, the analysis still returning a result. -/
theorem champion_lookup_miss_aborts_amended :
    (∀ (championsData : List (String × ChampInfo)) (champions enemy : List String)
        (name : String),
      champions.length = 5 → (enemy = [] ∨ enemy.length = 5) →
      name ∈ champions → get_champion_info championsData name = none →
      ∃ msg, get_team_composition championsData champions enemy = .error (404, msg)) ∧
    (∀ (championsData : List (String × ChampInfo)) (blue red : List String)
        (game_mode average_rank : String) (blue_adj red_adj : ℚ) (name : String),
      blue.length = 5 → red.length = 5 →
      (name ∈ blue ∨ name ∈ red) → get_champion_info championsData name = none →
      ∃ msg, get_match_outcome championsData blue red game_mode average_rank
        blue_adj red_adj = .error (404, msg)) ∧
    (∀ (championsData : List (String × ChampInfo)) (champions enemy : List String)
        (acc : OwnTeamAcc),
      champions.length = 5 → (enemy = [] ∨ enemy.length = 5) →
      analyzeOwnTeam championsData champions = .ok acc →
      ∃ res, get_team_composition championsData champions enemy = .ok res) := by
  refine ⟨?_, ?_, ?_⟩
  · intro championsData champions enemy name hlen henemy hmem hmiss
    obtain ⟨msg, herr⟩ := analyzeOwnTeam_miss championsData champions name hmem hmiss
    refine ⟨msg, ?_⟩
    unfold get_team_composition
    rw [if_neg (by simp [hlen])]
    rw [if_neg (by rcases henemy with h | h <;> simp [h])]
    simp only [herr]
  · intro championsData blue red game_mode average_rank blue_adj red_adj name hb hr hmem hmiss
    unfold get_match_outcome
    rw [if_neg (by simp [hb, hr])]
    cases hmem with
    | inl hm =>
      obtain ⟨msg, herr⟩ := analyze_team_miss championsData blue name hm hmiss
      refine ⟨msg, ?_⟩
      simp only [herr]
    | inr hm =>
      cases hba : analyze_team championsData blue with
      | error e =>
        obtain ⟨e1, e2⟩ := e
        have h404 := analyze_team_error_code championsData blue (e1, e2) hba
        simp only at h404
        subst h404
        refine ⟨e2, ?_⟩
        simp only [hba]
      | ok ba =>
        obtain ⟨msg, herr⟩ := analyze_team_miss championsData red name hm hmiss
        refine ⟨msg, ?_⟩
        simp only [hba, herr]
  · intro championsData champions enemy acc hlen henemy hok
    unfold get_team_composition
    rw [if_neg (by simp [hlen])]
    rw [if_neg (by rcases henemy with h | h <;> simp [h])]
    simp only [hok]
    exact ⟨_, rfl⟩

/-- C6: platform resolution probes the candidate list in order and
returns on the first candidate whose lookup succeeds, reporting that
platform; earlier candidates may answer 404 or record errors, later
candidates are never consulted.  Holds for both resolution call
sites. -/
theorem platform_resolution_first_success {β : Type} (falsy : β → Bool) (region : String)
    (l₁ l₂ : List String) (p : String) (b : β) (probe : String → ProbeResult β)
    (hfail : ∀ q ∈ l₁, (probe (strLower q)).isOk = false)
    (hp : probe (strLower p) = .ok b)
    (hbody : falsy b = false) :
    get_summoner_info falsy region (l₁ ++ p :: l₂) probe = .ok (strLower p, b) ∧
    get_ranked_stats region (l₁ ++ p :: l₂) probe = .ok (strLower p, b) := by
  have hloop := probeLoop_first_success probe none l₁ l₂ p b hfail hp
  constructor
  · unfold get_summoner_info
    rw [hloop]
    simp [hbody]
  · unfold get_ranked_stats
    rw [hloop]

/-- C7: when every candidate is exhausted without success, resolution
fails 404 when no non-404 probe error was recorded and 500 carrying
the last recorded error otherwise; and recorded errors are never
surfaced when some candidate succeeds with a truthy body. -/
theorem platform_resolution_exhaustion {β : Type} (falsy : β → Bool) (region : String)
    (probe : String → ProbeResult β) :
    (∀ platforms : List String,
      (∀ q ∈ platforms, (probe (strLower q)).isOk = false) →
      (lastErrorOf probe none platforms = none →
        get_summoner_info falsy region platforms probe =
          .error (404, "Summoner not found in any platform within " ++ region ++ " region.") ∧
        get_ranked_stats region platforms probe =
          .error (404, "Summoner not found in any platform within " ++ region ++ " region.")) ∧
      (∀ m, lastErrorOf probe none platforms = some m →
        get_summoner_info falsy region platforms probe =
          .error (500, "Failed to find summoner in " ++ region ++ " region. Last error: " ++ m) ∧
        get_ranked_stats region platforms probe =
          .error (500, "Failed to find ranked data in " ++ region ++ " region. Last error: " ++ m))) ∧
    (∀ (l₁ l₂ : List String) (p : String) (b : β),
      (∀ q ∈ l₁, (probe (strLower q)).isOk = false) →
      probe (strLower p) = .ok b → falsy b = false →
      get_summoner_info falsy region (l₁ ++ p :: l₂) probe = .ok (strLower p, b) ∧
      get_ranked_stats region (l₁ ++ p :: l₂) probe = .ok (strLower p, b)) := by
  constructor
  · intro platforms hfail
    have hloop := probeLoop_exhausted probe none platforms hfail
    constructor
    · intro hnone
      rw [hnone] at hloop
      constructor
      · unfold get_summoner_info
        rw [hloop]
      · unfold get_ranked_stats
        rw [hloop]
    · intro m hm
      rw [hm] at hloop
      constructor
      · unfold get_summoner_info
        rw [hloop]
      · unfold get_ranked_stats
        rw [hloop]
  · intro l₁ l₂ p b hfail hp hbody
    have hloop := probeLoop_first_success probe none l₁ l₂ p b hfail hp
    constructor
    · unfold get_summoner_info
      rw [hloop]
      simp [hbody]
    · unfold get_ranked_stats
      rw [hloop]

/-- C10: whenever the runes aggregation returns (having found at least
one rune row, with every first perks style carrying a selection), the
champion_breakdown holds exactly one champion entry, because the
response is returned from inside the per-champion loop, while the
overall tree and keystone counters total exactly the number of
aggregated matches. -/
theorem runes_breakdown_truncated_to_first_champion
    (puuid : String) (filter : Option String) (matchList : List MatchData)
    (res : RunesResult)
    (hsel : ∀ m ∈ matchList, ∀ p ∈ m.participants, head_style_has_selection p = true)
    (hok : get_runes_masteries puuid filter matchList = .ok res) :
    res.champion_breakdown.length = 1 ∧
    sumCounts res.primary_trees = res.matches_analyzed ∧
    sumCounts res.secondary_trees = res.matches_analyzed ∧
    sumCounts res.keystone_runes = res.matches_analyzed := by
  obtain ⟨st2, hfold, hinv⟩ := runesFold_inv puuid filter matchList
    ⟨[], [], [], [], [], none⟩ hsel ⟨rfl, rfl, rfl, fun h => absurd rfl h⟩
  unfold get_runes_masteries at hok
  simp only [hfold] at hok
  by_cases hempty : st2.rune_data = []
  · rw [if_pos hempty] at hok
    cases hok
  · rw [if_neg hempty] at hok
    injection hok with h2
    subst h2
    obtain ⟨h1, h2b, h3, h4⟩ := hinv
    refine ⟨?_, h1, h2b, h3⟩
    have hcr := h4 hempty
    show (st2.champion_runes.take 1).length = 1
    cases hc : st2.champion_runes with
    | nil => exact absurd hc hcr
    | cons c rest => rfl

/-- C1: the team-kills pass misses teammates appearing before the
player row: on a match where an ally with 3 kills precedes the player
with 2 kills, the loop yields 2 while the sum over all rows of the
team is 5, and the stored kill participation is computed from the
undercounted value (250 instead of 100). -/
theorem team_kills_undercounts_earlier_teammates :
    (teamKillsLoop "P" c1_match.participants none 0).1 = some c1_player ∧
    (teamKillsLoop "P" c1_match.participants none 0).2 = 2 ∧
    specTeamKills c1_player.teamId c1_match.participants = 5 ∧
    (processMatch "P" c1_match).map (fun r => r.kill_participation) = some 250 := by
  have hloop : teamKillsLoop "P" c1_match.participants none 0 = (some c1_player, 2) := by
    decide
  refine ⟨by decide, by decide, by decide, ?_⟩
  unfold processMatch
  simp only [hloop]
  norm_num [c1_player, kda_value, pyRound, rhe]

/-- C2: on a six-match result list ordered most recent first whose only
win is the most recent match, the recent_5_games slice, which is
performance_data[-5:], covers the five oldest entries and reports a
0 win rate, while the most recent five (the claimed window) have win
rate 20; fewer-than-N inputs are not the failure. -/
theorem recent_window_takes_oldest_entries :
    (performance_data "P" c2_matches).length = 6 ∧
    (performance_data "P" c2_matches).map (fun r => r.win) =
      [true, false, false, false, false, false] ∧
    recent_win_rate (performance_data "P" c2_matches) 5 = 0 ∧
    specRecentWinRate (performance_data "P" c2_matches) 5 = 20 := by
  have hlen : (performance_data "P" c2_matches).length = 6 := by decide
  have h0 : ((lastSlice (performance_data "P" c2_matches) 5).filter
      fun r => r.win).length = 0 := by decide
  have h1 : (((performance_data "P" c2_matches).take 5).filter
      fun r => r.win).length = 1 := by decide
  refine ⟨hlen, by decide, ?_, ?_⟩
  · unfold recent_win_rate
    rw [h0, hlen]
    norm_num [pyRound, rhe, Nat.min_def]
  · unfold specRecentWinRate
    rw [h1, hlen]
    norm_num [pyRound, rhe, Nat.min_def]

/-- C3: on two analyzed matches with the same Flash and Ignite spell
pair, the spells endpoint reports matches_analyzed 1, the number of
distinct spell combinations, although two matches with a found player
row were aggregated; the performance counter on the same data is 2. -/
theorem spells_matches_analyzed_counts_distinct_combos :
    spec_spells_matches_analyzed "P" none c3_matches = 2 ∧
    spells_matches_analyzed "P" none c3_matches = 1 ∧
    spell_combo c3_player = ("Flash", "Ignite") ∧
    perf_matches_analyzed "P" c3_matches = 2 := by
  decide

/-- C4 (counterexample): an enemy-team catalog miss does not abort the
team-composition request: with the champion Voidling absent from the
catalog yet present in the enemy list, the analysis still returns a
result instead of a 404 failure. -/
theorem enemy_lookup_miss_does_not_abort :
    get_champion_info c4_catalog "Voidling" = none ∧
    "Voidling" ∈ c4_enemy ∧
    c4_enemy.length = 5 ∧
    exceptIsOk (get_team_composition c4_catalog c4_team c4_enemy) = true := by
  decide

/-- C4 witness: the amended claim applied at a concrete catalog, a
five-name own team containing the missing champion, and a concrete
outcome-prediction request. -/
theorem champion_lookup_miss_aborts_amended_witness :
    (∃ msg, get_team_composition c4_catalog
      ["Voidling", "Lux", "Jinx", "Thresh", "Garen"] [] = .error (404, msg)) ∧
    (∃ msg, get_match_outcome c4_catalog
      ["Voidling", "Lux", "Jinx", "Thresh", "Garen"] c4_team "CLASSIC" "GOLD" 0 0 =
        .error (404, msg)) :=
  ⟨champion_lookup_miss_aborts_amended.1 c4_catalog
      ["Voidling", "Lux", "Jinx", "Thresh", "Garen"] [] "Voidling"
      (by decide) (Or.inl rfl) (by decide) (by decide),
   champion_lookup_miss_aborts_amended.2.1 c4_catalog
      ["Voidling", "Lux", "Jinx", "Thresh", "Garen"] c4_team "CLASSIC" "GOLD" 0 0 "Voidling"
      (by decide) (by decide) (Or.inl (by decide)) (by decide)⟩

/-- C5 witness: the clamp and complement invariants at a concrete
mirror-team request with the random adjustments fixed to zero. -/
theorem outcome_probabilities_witness :
    ∃ res, get_match_outcome c5_catalog c5_team c5_team "CLASSIC" "GOLD" 0 0 = .ok res ∧
      (25 ≤ res.blue_team_win_probability ∧ res.blue_team_win_probability ≤ 75 ∧
        25 ≤ res.red_team_win_probability ∧ res.red_team_win_probability ≤ 75 ∧
        res.blue_team_win_probability + res.red_team_win_probability = 100) :=
  ⟨_, rfl, outcome_probabilities_clamped_and_complementary c5_catalog c5_team c5_team
    "CLASSIC" "GOLD" 0 0 _ rfl⟩

/-- C6 witness: with a 404 on the first candidate and a success on the
second, both resolution sites report the second platform and never
consult the third. -/
theorem platform_resolution_first_success_witness :
    get_summoner_info (fun _ : ℕ => false) "americas" ["NA1", "BR1", "LA1"] c6_probe =
      .ok ("br1", 7) ∧
    get_ranked_stats "americas" ["NA1", "BR1", "LA1"] c6_probe = .ok ("br1", 7) :=
  platform_resolution_first_success (fun _ : ℕ => false) "americas" ["NA1"] ["LA1"]
    "BR1" 7 c6_probe (by decide) (by decide) rfl

/-- C7 witness: with a non-404 error on the first candidate and a 404
on the second, exhaustion surfaces a 500 carrying the recorded probe
error at both resolution sites. -/
theorem platform_resolution_exhaustion_witness :
    get_summoner_info (fun _ : ℕ => false) "americas" ["NA1", "BR1"] c7_probe =
      .error (500,
        "Failed to find summoner in americas region. Last error: Platform na1: 503 - busy") ∧
    get_ranked_stats "americas" ["NA1", "BR1"] c7_probe =
      .error (500,
        "Failed to find ranked data in americas region. Last error: Platform na1: 503 - busy") :=
  ((platform_resolution_exhaustion (fun _ : ℕ => false) "americas" c7_probe).1
    ["NA1", "BR1"] (by decide)).2 "Platform na1: 503 - busy" (by decide)

/-- C10 witness: two matches on two distinct champions yield a
breakdown with the single first-seen champion, while the overall
counters total both matches. -/
theorem runes_breakdown_witness :
    get_runes_masteries "P" none c10_matches = .ok c10_result ∧
    (c10_result.champion_breakdown.length = 1 ∧
      sumCounts c10_result.primary_trees = c10_result.matches_analyzed ∧
      sumCounts c10_result.secondary_trees = c10_result.matches_analyzed ∧
      sumCounts c10_result.keystone_runes = c10_result.matches_analyzed) :=
  ⟨rfl, runes_breakdown_truncated_to_first_champion "P" none c10_matches c10_result
    (by decide) rfl⟩

/-- C8 witness: the zero-deaths branch of the KDA floor at a concrete
record with 2 kills, 0 deaths and 3 assists. -/
theorem kda_denominator_floored_witness :
    c8_player.deaths = 0 ∧
    kda_value c8_player.kills c8_player.deaths c8_player.assists =
      (c8_player.kills : ℚ) + (c8_player.assists : ℚ) :=
  ⟨rfl, (kda_denominator_floored c8_player).1 rfl⟩
